import Mathlib

set_option maxRecDepth 10000

/-!
Verification development for the general-ledger ETL pipeline
(extract / transform / load for accounts, transactions and
account-participation rows).

The Lean definitions below are a shallow embedding of the Python sources:

* `models/general_ledger_account.py` and
  `models/general_ledger_transactions.py` give the data model;
* `transform/transform_general_ledger_accounts.py`,
  `transform/transform_general_ledger_transactions.py` and
  `transform/transform_account_participation.py` give the transforms;
* `extract/extract_general_ledger_transactions.py` and
  `extract/extract_general_ledger_accounts.py` give the extract layer;
* `load/load_into_snowflake.py` gives the stage-and-merge loader.

Machine-level details that the claims do not touch are represented
abstractly: float amounts are modelled as integers (they are only carried
through, never computed with), dates and timestamps as strings, and the
HTTP / warehouse boundaries as explicit input sequences and result values.
-/

namespace SFR3

/-! ## Data model: accounts (`models/general_ledger_account.py`)

`GeneralLedgerAccount` is recursive in Python (`sub_accounts` holds nested
accounts, `Optional[list[...]]` with default `[]`), so it is an inductive
type here, with one accessor per pydantic field, in declaration order. -/

inductive GeneralLedgerAccount : Type where
  | mk
    (id : Int)
    (account_number : Option String)
    (name : String)
    (description : Option String)
    (type : String)
    (sub_type : String)
    (is_default_gl_account : Bool)
    (default_account_name : Option String)
    (is_contra_account : Bool)
    (is_bank_account : Bool)
    (cash_flow_classification : Option String)
    (exclude_from_cash_balances : Bool)
    (sub_accounts : Option (List GeneralLedgerAccount))
    (is_active : Bool)
    (parent_gl_account_id : Option Int)

def GeneralLedgerAccount.id : GeneralLedgerAccount → Int
  | .mk v _ _ _ _ _ _ _ _ _ _ _ _ _ _ => v

def GeneralLedgerAccount.account_number : GeneralLedgerAccount → Option String
  | .mk _ v _ _ _ _ _ _ _ _ _ _ _ _ _ => v

def GeneralLedgerAccount.name : GeneralLedgerAccount → String
  | .mk _ _ v _ _ _ _ _ _ _ _ _ _ _ _ => v

def GeneralLedgerAccount.description : GeneralLedgerAccount → Option String
  | .mk _ _ _ v _ _ _ _ _ _ _ _ _ _ _ => v

def GeneralLedgerAccount.type : GeneralLedgerAccount → String
  | .mk _ _ _ _ v _ _ _ _ _ _ _ _ _ _ => v

def GeneralLedgerAccount.sub_type : GeneralLedgerAccount → String
  | .mk _ _ _ _ _ v _ _ _ _ _ _ _ _ _ => v

def GeneralLedgerAccount.is_default_gl_account : GeneralLedgerAccount → Bool
  | .mk _ _ _ _ _ _ v _ _ _ _ _ _ _ _ => v

def GeneralLedgerAccount.default_account_name : GeneralLedgerAccount → Option String
  | .mk _ _ _ _ _ _ _ v _ _ _ _ _ _ _ => v

def GeneralLedgerAccount.is_contra_account : GeneralLedgerAccount → Bool
  | .mk _ _ _ _ _ _ _ _ v _ _ _ _ _ _ => v

def GeneralLedgerAccount.is_bank_account : GeneralLedgerAccount → Bool
  | .mk _ _ _ _ _ _ _ _ _ v _ _ _ _ _ => v

def GeneralLedgerAccount.cash_flow_classification : GeneralLedgerAccount → Option String
  | .mk _ _ _ _ _ _ _ _ _ _ v _ _ _ _ => v

def GeneralLedgerAccount.exclude_from_cash_balances : GeneralLedgerAccount → Bool
  | .mk _ _ _ _ _ _ _ _ _ _ _ v _ _ _ => v

def GeneralLedgerAccount.sub_accounts : GeneralLedgerAccount → Option (List GeneralLedgerAccount)
  | .mk _ _ _ _ _ _ _ _ _ _ _ _ v _ _ => v

def GeneralLedgerAccount.is_active : GeneralLedgerAccount → Bool
  | .mk _ _ _ _ _ _ _ _ _ _ _ _ _ v _ => v

def GeneralLedgerAccount.parent_gl_account_id : GeneralLedgerAccount → Option Int
  | .mk _ _ _ _ _ _ _ _ _ _ _ _ _ _ v => v

/-- `GeneralLedgerAccountFlattened`: same fields, `sub_accounts` dropped. -/
structure GeneralLedgerAccountFlattened : Type where
  id : Int
  account_number : Option String
  name : String
  description : Option String
  type : String
  sub_type : String
  is_default_gl_account : Bool
  default_account_name : Option String
  is_contra_account : Bool
  is_bank_account : Bool
  cash_flow_classification : Option String
  exclude_from_cash_balances : Bool
  is_active : Bool
  parent_gl_account_id : Option Int

/-! ## Data model: transactions (`models/general_ledger_transactions.py`) -/

structure UnitAgreement : Type where
  id : Int
  type : String
  href : String

structure PaymentDetail : Type where
  payment_method : String
  payee : Option String
  is_internal_transaction : Bool
  internal_transaction_status : Option String

/-- `payment_transactions` is `List[Any]` in the source and is only carried
through; its elements are modelled as abstract strings. -/
structure DepositDetails : Type where
  bank_gl_account_id : Option Int
  payment_transactions : List String

/-- Python class `Unit` (renamed: `Unit` is taken by the Lean prelude). -/
structure UnitRef : Type where
  id : Int
  href : String

structure AccountingEntity : Type where
  id : Int
  accounting_entity_type : String
  href : String
  unit : UnitRef

structure JournalLine : Type where
  gl_account : GeneralLedgerAccount
  amount : Int
  is_cash_posting : Bool
  reference_number : Option String
  memo : String
  accounting_entity : AccountingEntity

structure JournalLineTransformed : Type where
  amount : Int
  is_cash_posting : Bool
  reference_number : Option String
  memo : String
  general_ledger_account_id : Int
  accounting_entity : AccountingEntity

structure Journal : Type where
  memo : String
  lines : List JournalLine

structure GeneralLedgerTransaction : Type where
  id : Int
  date : String
  transaction_type : String
  total_amount : Int
  check_number : String
  unit_agreement : UnitAgreement
  unit_id : Int
  unit_number : String
  payment_detail : PaymentDetail
  deposit_details : DepositDetails
  journal : Journal
  last_updated_date_time : String

structure GeneralLedgerTransactionTransformed : Type where
  id : Int
  date : String
  transaction_type : String
  total_amount : Int
  check_number : String
  unit_agreement : UnitAgreement
  unit_id : Int
  unit_number : String
  payment_detail : PaymentDetail
  deposit_details : DepositDetails
  journal_memo : String
  lines : List JournalLineTransformed
  last_updated_date_time : String

/-- Association record from `models/general_ledger_account_transactions.py`. -/
structure GeneralLedgerAccountTransactions : Type where
  account_id : Int
  transaction_id : Int

/-! ## Transform: transactions
(`transform/transform_general_ledger_transactions.py`)

The loop body builds, for each journal line,
the dump of the line without its `gl_account` field plus
`general_ledger_account_id = line.gl_account.id`, and for each transaction,
the dump of the transaction without its `journal` field plus `journal_memo` and the
transformed `lines`. -/

def transformJournalLine (line : JournalLine) : JournalLineTransformed :=
  { amount := line.amount
    is_cash_posting := line.is_cash_posting
    reference_number := line.reference_number
    memo := line.memo
    general_ledger_account_id := line.gl_account.id
    accounting_entity := line.accounting_entity }

def transformTransaction (transaction : GeneralLedgerTransaction) :
    GeneralLedgerTransactionTransformed :=
  { id := transaction.id
    date := transaction.date
    transaction_type := transaction.transaction_type
    total_amount := transaction.total_amount
    check_number := transaction.check_number
    unit_agreement := transaction.unit_agreement
    unit_id := transaction.unit_id
    unit_number := transaction.unit_number
    payment_detail := transaction.payment_detail
    deposit_details := transaction.deposit_details
    journal_memo := transaction.journal.memo
    lines := transaction.journal.lines.map transformJournalLine
    last_updated_date_time := transaction.last_updated_date_time }

/-- The dedup loop: `stored_ids` plays the role of the Python set of already
emitted transaction ids. -/
def transformTransactionsLoop :
    List GeneralLedgerTransaction → List Int → List GeneralLedgerTransactionTransformed
  | [], _ => []
  | transaction :: rest, stored_ids =>
    if stored_ids.contains transaction.id then
      transformTransactionsLoop rest stored_ids
    else
      transformTransaction transaction ::
        transformTransactionsLoop rest (transaction.id :: stored_ids)

def transform_general_ledger_transactions
    (transactions : List GeneralLedgerTransaction) :
    List GeneralLedgerTransactionTransformed :=
  transformTransactionsLoop transactions []

/-- Specification-side description of first-seen dedup on ids: the distinct
ids of the input, in order of first occurrence. -/
def firstSeenIds : List Int → List Int
  | [] => []
  | i :: rest => i :: firstSeenIds (rest.filter (fun j => !(j == i)))
termination_by l => l.length
decreasing_by
  simp only [List.length_cons]
  exact Nat.lt_succ_of_le (List.length_filter_le _ _)

/-! ## Transform: accounts
(`transform/transform_general_ledger_accounts.py`)

Each account is dumped without its `sub_accounts` field, then each direct
sub-account is dumped the same way.  The Python loop
`for sub_account in account.sub_accounts:` iterates the field value
directly, so an account whose `sub_accounts` is `None` (an explicit JSON
`null`, which pydantic accepts for this `Optional` field) raises
`TypeError`; that is modelled as the `Except.error` branch. -/

def flattenAccount (account : GeneralLedgerAccount) : GeneralLedgerAccountFlattened :=
  { id := account.id
    account_number := account.account_number
    name := account.name
    description := account.description
    type := account.type
    sub_type := account.sub_type
    is_default_gl_account := account.is_default_gl_account
    default_account_name := account.default_account_name
    is_contra_account := account.is_contra_account
    is_bank_account := account.is_bank_account
    cash_flow_classification := account.cash_flow_classification
    exclude_from_cash_balances := account.exclude_from_cash_balances
    is_active := account.is_active
    parent_gl_account_id := account.parent_gl_account_id }

def transform_general_ledger_accounts :
    List GeneralLedgerAccount → Except String (List GeneralLedgerAccountFlattened)
  | [] => .ok []
  | account :: rest =>
    match account.sub_accounts with
    | none => .error "TypeError: NoneType object is not iterable"
    | some subs =>
      match transform_general_ledger_accounts rest with
      | .ok tail => .ok (flattenAccount account :: (subs.map flattenAccount ++ tail))
      | .error e => .error e

/-! ## Extract: transactions
(`extract/extract_general_ledger_transactions.py`)

The JSON payload is modelled as the list of well-formed transactions it
decodes to.  `transactions_json_search` keeps a transaction as soon as one
of its journal lines carries a `GLAccount` whose `Id` equals the requested
account id (the Python `break` yields at most one copy per transaction,
i.e. `List.filter`). -/

def transactions_json_search
    (json_transactions : List GeneralLedgerTransaction)
    (general_account_id : Int) : List GeneralLedgerTransaction :=
  json_transactions.filter
    (fun transaction =>
      transaction.journal.lines.any
        (fun line => line.gl_account.id == general_account_id))

/-- `get_general_ledger_transactions` in its batch/offline mode
(`json_data` provided): the guard `if not general_account_id` raises
`ValueError` for a falsy id, and `0` is the only falsy `int`.  The
validation of the filtered payload is the identity on this already-typed
model. -/
def get_general_ledger_transactions
    (general_account_id : Int)
    (json_data : List GeneralLedgerTransaction) :
    Except String (List GeneralLedgerTransaction) :=
  if general_account_id = 0 then
    .error "General account ID is required"
  else
    .ok (transactions_json_search json_data general_account_id)

/-! ## Transform: account participation
(`transform/transform_account_participation.py`)

The Python function iterates a `Set[int]`; the model takes the iteration
order as a list.  Any exception from the per-account fetch aborts the whole
mapping (the `except` clause re-raises). -/

def mapAccountParticipationLoop
    (general_ledger_transactions_json_data : List GeneralLedgerTransaction) :
    List Int → List GeneralLedgerAccountTransactions →
    List GeneralLedgerTransaction →
    Except String (List GeneralLedgerAccountTransactions × List GeneralLedgerTransaction)
  | [], transactions_per_account, all_transactions =>
    .ok (transactions_per_account, all_transactions)
  | account_id :: rest, transactions_per_account, all_transactions =>
    match get_general_ledger_transactions account_id
        general_ledger_transactions_json_data with
    | .error e => .error e
    | .ok transactions =>
      mapAccountParticipationLoop general_ledger_transactions_json_data rest
        (transactions_per_account ++
          transactions.map
            (fun transaction =>
              { account_id := account_id, transaction_id := transaction.id }))
        (all_transactions ++ transactions)

def map_account_participation
    (general_ledger_accounts_ids : List Int)
    (general_ledger_transactions_json_data : List GeneralLedgerTransaction) :
    Except String (List GeneralLedgerAccountTransactions × List GeneralLedgerTransaction) :=
  mapAccountParticipationLoop general_ledger_transactions_json_data
    general_ledger_accounts_ids [] []

/-! ## Extract: retrying fetcher
(`extract/extract_general_ledger_transactions.py`, `fetch_transactions_from_api`)

The HTTP boundary is modelled as a sequence of responses, one per request
attempt.  `raise_for_status` raises for every status of 400 and above, so
a non-429 status below 400 returns the body.  The result records the body
or failure together with the list of back-off sleeps performed, in order. -/

structure ApiResponse : Type where
  status_code : Nat
  text : String

inductive FetchResult : Type where
  | success (body : String) (sleeps : List Nat)
  | transportError (status_code : Nat) (sleeps : List Nat)
  | retryExhausted (sleeps : List Nat)
  deriving DecidableEq

/-- The `while current_retries < maximum_retries` loop; `remaining` is
`maximum_retries - current_retries`. -/
def fetchTransactionsLoop (respond : Nat → ApiResponse) :
    Nat → Nat → Nat → List Nat → FetchResult
  | _, 0, _, sleeps => .retryExhausted sleeps
  | attempt, remaining + 1, delay, sleeps =>
    let response := respond attempt
    if response.status_code = 429 then
      fetchTransactionsLoop respond (attempt + 1) remaining (delay * 2) (sleeps ++ [delay])
    else if 400 ≤ response.status_code then
      .transportError response.status_code sleeps
    else
      .success response.text sleeps

/-- `delay = 2`, `maximum_retries = 5`, `current_retries = 0` as in the
source; the required date-range parameters are checked before this loop and
are not part of the modelled behaviour. -/
def fetch_transactions_from_api (respond : Nat → ApiResponse) : FetchResult :=
  fetchTransactionsLoop respond 0 5 2 []

/-! ## Extract: accounts and schema validation
(`extract/extract_general_ledger_accounts.py` together with the pydantic
model declarations of `models/general_ledger_account.py`)

A raw JSON element is modelled field by field: `none` stands for a missing
or ill-typed value of that field, `some v` for a well-typed value.  The
pydantic model marks nine fields as required; `validate_json` on
`TypeAdapter(list[GeneralLedgerAccount])` validates every element and
raises one `ValidationError` for the whole call if any element fails.
Raw `sub_accounts` is modelled as the (possibly empty) list of nested raw
elements, matching the `default_factory=list` default. -/

inductive RawAccount : Type where
  | mk
    (id : Option Int)
    (account_number : Option String)
    (name : Option String)
    (description : Option String)
    (type : Option String)
    (sub_type : Option String)
    (is_default_gl_account : Option Bool)
    (default_account_name : Option String)
    (is_contra_account : Option Bool)
    (is_bank_account : Option Bool)
    (cash_flow_classification : Option String)
    (exclude_from_cash_balances : Option Bool)
    (sub_accounts : List RawAccount)
    (is_active : Option Bool)
    (parent_gl_account_id : Option Int)

mutual

def parseAccount : RawAccount → Except String GeneralLedgerAccount
  | .mk oid an onm ds oty ost oidg dan oic oib cfc oex subs oia pg =>
    match oid, onm, oty, ost, oidg, oic, oib, oex, oia with
    | some i, some nm, some ty, some st, some idg, some ic, some ib, some ex, some ia =>
      match parseAccountList subs with
      | .ok parsed_subs =>
        .ok (.mk i an nm ds ty st idg dan ic ib cfc ex (some parsed_subs) ia pg)
      | .error e => .error e
    | _, _, _, _, _, _, _, _, _ =>
      .error "ValidationError: field required"

def parseAccountList : List RawAccount → Except String (List GeneralLedgerAccount)
  | [] => .ok []
  | raw :: rest =>
    match parseAccount raw with
    | .ok account =>
      match parseAccountList rest with
      | .ok tail => .ok (account :: tail)
      | .error e => .error e
    | .error e => .error e

end

/-- `GeneralLedgerAccounts = TypeAdapter(list[GeneralLedgerAccount])`,
`validate_json`. -/
def GeneralLedgerAccounts.validate_json
    (json_accounts : List RawAccount) : Except String (List GeneralLedgerAccount) :=
  parseAccountList json_accounts

/-- `get_general_ledger_accounts` in its `json_data`-provided mode (the API
branch is the external HTTP boundary). -/
def get_general_ledger_accounts
    (json_data : List RawAccount) : Except String (List GeneralLedgerAccount) :=
  GeneralLedgerAccounts.validate_json json_data

/-! ## Load: stage and merge (`load/load_into_snowflake.py`) -/

/-- Export-time timestamp, an abstract token here. -/
def inserted_at_timestamp : String := "<inserted_at>"

/-- `preprocess_row`: appends `run_id` and `inserted_at`; the JSON
re-encoding of nested values is the identity on this already-textual row
model. -/
def preprocess_row (row : List (String × String)) (run_id : String) :
    List (String × String) :=
  row ++ [("run_id", run_id), ("inserted_at", inserted_at_timestamp)]

structure CsvFile : Type where
  file_name : String
  fieldnames : List String
  rows : List (List (String × String))

/-- `export_data_to_csv`: the header comes from `data[0].model_dump().keys()`,
so the empty list raises `IndexError`.  `model_dump` is the per-model
row-dump function. -/
def export_data_to_csv {α : Type}
    (model_dump : α → List (String × String))
    (data : List α) (file_name : String) (run_id : String) :
    Except String CsvFile :=
  match data with
  | [] => .error "IndexError: list index out of range"
  | first :: _ =>
    .ok
      { file_name := file_name
        fieldnames := (model_dump first).map Prod.fst ++ ["run_id", "inserted_at"]
        rows := data.map (fun row => preprocess_row (model_dump row) run_id) }

/-- The `" AND ".join(...)` match condition of
`merge_staging_table_into_target_table`. -/
def idMatchingCondition (id_matching_columns : List String) : String :=
  String.intercalate " AND "
    (id_matching_columns.map (fun column => "target." ++ column ++ " = source." ++ column))

/-- The merge statement text, exactly as interpolated in the source. -/
def mergeQueryText (staging_table target_table : String)
    (columns : List String) (id_matching_columns : List String) : String :=
  "MERGE INTO " ++ target_table ++
    " AS target USING (SELECT * FROM " ++ staging_table ++
    " WHERE run_id = %s) AS source ON " ++ idMatchingCondition id_matching_columns ++
    " WHEN NOT MATCHED THEN INSERT (" ++ String.intercalate ", " columns ++
    ") VALUES (" ++ String.intercalate ", " columns ++ ")"

/-- `merge_staging_table_into_target_table` executes the merge statement
with `(run_id,)` as its bound parameter tuple; the model returns the
executed statement together with its bound parameters.  The source default
for `id_matching_columns` is `["id"]`, which the account and transaction
call sites use implicitly. -/
def merge_staging_table_into_target_table
    (staging_table target_table : String) (columns : List String)
    (run_id : String) (id_matching_columns : List String) :
    String × List String :=
  (mergeQueryText staging_table target_table columns id_matching_columns, [run_id])

/-- Column keys of `GeneralLedgerAccountFlattened.model_dump()`, in pydantic
declaration order. -/
def GeneralLedgerAccountFlattened.model_dump
    (account : GeneralLedgerAccountFlattened) : List (String × String) :=
  [("id", toString account.id),
   ("account_number", (account.account_number).getD ""),
   ("name", account.name),
   ("description", (account.description).getD ""),
   ("type", account.type),
   ("sub_type", account.sub_type),
   ("is_default_gl_account", toString account.is_default_gl_account),
   ("default_account_name", (account.default_account_name).getD ""),
   ("is_contra_account", toString account.is_contra_account),
   ("is_bank_account", toString account.is_bank_account),
   ("cash_flow_classification", (account.cash_flow_classification).getD ""),
   ("exclude_from_cash_balances", toString account.exclude_from_cash_balances),
   ("is_active", toString account.is_active),
   ("parent_gl_account_id", ((account.parent_gl_account_id).map toString).getD "")]

/-- Column keys of `GeneralLedgerTransactionTransformed.model_dump()`, in
pydantic declaration order; nested sub-records are rendered abstractly (they
are JSON-encoded by `preprocess_row` in the source). -/
def GeneralLedgerTransactionTransformed.model_dump
    (transaction : GeneralLedgerTransactionTransformed) : List (String × String) :=
  [("id", toString transaction.id),
   ("date", transaction.date),
   ("transaction_type", transaction.transaction_type),
   ("total_amount", toString transaction.total_amount),
   ("check_number", transaction.check_number),
   ("unit_agreement", "<nested>"),
   ("unit_id", toString transaction.unit_id),
   ("unit_number", transaction.unit_number),
   ("payment_detail", "<nested>"),
   ("deposit_details", "<nested>"),
   ("journal_memo", transaction.journal_memo),
   ("lines", "<nested>"),
   ("last_updated_date_time", transaction.last_updated_date_time)]

def GeneralLedgerAccountTransactions.model_dump
    (row : GeneralLedgerAccountTransactions) : List (String × String) :=
  [("account_id", toString row.account_id),
   ("transaction_id", toString row.transaction_id)]

/-- The column names the account load passes to the merge
(`general_ledger_accounts[0].model_dump().keys()`). -/
def account_columns : List String :=
  ["id", "account_number", "name", "description", "type", "sub_type",
   "is_default_gl_account", "default_account_name", "is_contra_account",
   "is_bank_account", "cash_flow_classification", "exclude_from_cash_balances",
   "is_active", "parent_gl_account_id"]

/-- The column names the transaction load passes to the merge. -/
def transaction_columns : List String :=
  ["id", "date", "transaction_type", "total_amount", "check_number",
   "unit_agreement", "unit_id", "unit_number", "payment_detail",
   "deposit_details", "journal_memo", "lines", "last_updated_date_time"]

/-- The column names the account-participation load passes to the merge. -/
def account_transactions_columns : List String :=
  ["account_id", "transaction_id"]

/-- `load_general_ledger_accounts_into_snowflake`: export, stage (an
external warehouse operation, not modelled), then merge with the columns of
`general_ledger_accounts[0].model_dump().keys()` and the default key
`["id"]`.  The result is the exported file and the executed merge
statement with its parameters. -/
def load_general_ledger_accounts_into_snowflake
    (general_ledger_accounts : List GeneralLedgerAccountFlattened)
    (run_id : String) : Except String (CsvFile × (String × List String)) := do
  let file_name := "general_ledger_accounts_" ++ run_id ++ ".csv"
  let csv ← export_data_to_csv GeneralLedgerAccountFlattened.model_dump
    general_ledger_accounts file_name run_id
  let first ← match general_ledger_accounts with
    | [] => Except.error "IndexError: list index out of range"
    | account :: _ => Except.ok account
  Except.ok (csv,
    merge_staging_table_into_target_table "general_ledger_staging.account"
      "general_ledger.account" ((first.model_dump).map Prod.fst) run_id ["id"])

def load_general_ledger_transactions_into_snowflake
    (general_ledger_transactions : List GeneralLedgerTransactionTransformed)
    (run_id : String) : Except String (CsvFile × (String × List String)) := do
  let file_name := "general_ledger_transactions_" ++ run_id ++ ".csv"
  let csv ← export_data_to_csv GeneralLedgerTransactionTransformed.model_dump
    general_ledger_transactions file_name run_id
  let first ← match general_ledger_transactions with
    | [] => Except.error "IndexError: list index out of range"
    | transaction :: _ => Except.ok transaction
  Except.ok (csv,
    merge_staging_table_into_target_table "general_ledger_staging.transaction"
      "general_ledger.transaction" ((first.model_dump).map Prod.fst) run_id ["id"])

def load_general_ledger_account_transactions_into_snowflake
    (general_ledger_account_transactions : List GeneralLedgerAccountTransactions)
    (run_id : String) : Except String (CsvFile × (String × List String)) := do
  let file_name := "general_ledger_account_transactions_" ++ run_id ++ ".csv"
  let csv ← export_data_to_csv GeneralLedgerAccountTransactions.model_dump
    general_ledger_account_transactions file_name run_id
  let first ← match general_ledger_account_transactions with
    | [] => Except.error "IndexError: list index out of range"
    | row :: _ => Except.ok row
  Except.ok (csv,
    merge_staging_table_into_target_table "general_ledger_staging.account_transactions"
      "general_ledger.account_transactions" ((first.model_dump).map Prod.fst) run_id
      ["account_id", "transaction_id"])

/-! ## Concrete sample data for examples and witnesses -/

/-- A leaf account (empty sub-account list) with a given id. -/
def sampleGLAccount (i : Int) : GeneralLedgerAccount :=
  .mk i none "Rental Income" none "Income" "Income" false none false false
    none false (some []) true none

/-- An account with an explicit `null` sub-account field, as produced by a
JSON payload with `"SubAccounts": null` (which the pydantic `Optional`
field accepts). -/
def nullSubAccountsAccount (i : Int) : GeneralLedgerAccount :=
  .mk i none "Operating Cash" none "Asset" "CurrentAsset" false none false true
    none false none true none

/-- An account carrying the given direct sub-accounts. -/
def parentGLAccount (i : Int) (subs : List GeneralLedgerAccount) : GeneralLedgerAccount :=
  .mk i (some "1000") "Assets" none "Asset" "CurrentAsset" false none false false
    none false (some subs) true none

def sampleAccountingEntity : AccountingEntity :=
  { id := 27786
    accounting_entity_type := "Rental"
    href := "/v1/rentals/27786"
    unit := { id := 96242, href := "/v1/rentals/units/96242" } }

/-- A journal line posting against the account with id `acct`. -/
def sampleJournalLine (acct : Int) : JournalLine :=
  { gl_account := sampleGLAccount acct
    amount := 60
    is_cash_posting := false
    reference_number := none
    memo := "line memo"
    accounting_entity := sampleAccountingEntity }

/-- A transaction with the given id, journal memo and one journal line per
listed account id. -/
def sampleTransaction (i : Int) (journal_memo : String) (accts : List Int) :
    GeneralLedgerTransaction :=
  { id := i
    date := "2024-12-15"
    transaction_type := "Charge"
    total_amount := 60
    check_number := ""
    unit_agreement := { id := 130647, type := "Lease", href := "/v1/leases/130647" }
    unit_id := 96242
    unit_number := "707203"
    payment_detail :=
      { payment_method := "None"
        payee := none
        is_internal_transaction := false
        internal_transaction_status := none }
    deposit_details := { bank_gl_account_id := none, payment_transactions := [] }
    journal := { memo := journal_memo, lines := accts.map sampleJournalLine }
    last_updated_date_time := "2024-12-16T00:00:00Z" }

/-- A raw account element with every required field present. -/
def rawAccountGood : RawAccount :=
  .mk (some 3) none (some "Rental Income") (some "Rent Income") (some "Income")
    (some "Income") (some true) (some "Rent Income") (some false) (some false)
    (some "OperatingActivities") (some false) [] (some true) none

/-- A raw account element missing the required `Name` field. -/
def rawAccountBad : RawAccount :=
  .mk (some 4) none none none (some "Income") (some "Income") (some false) none
    (some false) (some false) none (some false) [] (some true) none

/-- Every attempt is rate limited. -/
def respondAll429 : Nat → ApiResponse :=
  fun _ => { status_code := 429, text := "rate limited" }

/-- Rate limited on the first attempt, success on the second. -/
def respondThenOk : Nat → ApiResponse :=
  fun attempt =>
    if attempt = 0 then { status_code := 429, text := "rate limited" }
    else { status_code := 200, text := "payload" }

/-- A server error on the first attempt. -/
def respond500 : Nat → ApiResponse :=
  fun _ => { status_code := 500, text := "server error" }

/-- Success on the first attempt. -/
def respondOk : Nat → ApiResponse :=
  fun _ => { status_code := 200, text := "body" }

/-! ## Lemmas on the transaction dedup loop -/

theorem transformTransactionsLoop_map_id
    (transactions : List GeneralLedgerTransaction) :
    ∀ stored : List Int,
      (transformTransactionsLoop transactions stored).map (fun o => o.id)
        = firstSeenIds
            ((transactions.map (fun t => t.id)).filter
              (fun i => !(stored.contains i))) := by
  induction transactions with
  | nil => intro stored; simp [transformTransactionsLoop, firstSeenIds]
  | cons t rest ih =>
    intro stored
    by_cases h : stored.contains t.id = true
    · simp only [transformTransactionsLoop]
      rw [if_pos h]
      simp only [List.map_cons, List.filter_cons, h, Bool.not_true,
        Bool.false_eq_true, if_false]
      exact ih stored
    · simp only [transformTransactionsLoop]
      rw [if_neg h]
      have hcontains : stored.contains t.id = false := by
        exact Bool.eq_false_iff.mpr h
      simp only [List.map_cons, List.filter_cons, hcontains, Bool.not_false,
        if_true, firstSeenIds]
      rw [ih (t.id :: stored), List.filter_filter]
      congr 2
      apply List.filter_congr
      intro a _
      by_cases he : a = t.id <;> by_cases hm : a ∈ stored <;>
        simp [he, hm, List.contains_cons, Bool.not_or, beq_eq_decide]

theorem mem_firstSeenIds : ∀ l : List Int, ∀ j ∈ firstSeenIds l, j ∈ l := by
  intro l
  induction l using firstSeenIds.induct with
  | case1 => intro j hj; simp [firstSeenIds] at hj
  | case2 i rest ih =>
    intro j hj
    simp only [firstSeenIds, List.mem_cons] at hj
    rcases hj with h | h
    · exact List.mem_cons.mpr (Or.inl h)
    · exact List.mem_cons.mpr (Or.inr (List.mem_of_mem_filter (ih j h)))

theorem firstSeenIds_nodup : ∀ l : List Int, (firstSeenIds l).Nodup := by
  intro l
  induction l using firstSeenIds.induct with
  | case1 => simp [firstSeenIds]
  | case2 i rest ih =>
    simp only [firstSeenIds, List.nodup_cons]
    refine ⟨fun hmem => ?_, ih⟩
    have h2 := List.of_mem_filter (mem_firstSeenIds _ _ hmem)
    simp at h2

theorem transformTransactionsLoop_first_occurrence
    (transactions : List GeneralLedgerTransaction) :
    ∀ (stored : List Int) (o : GeneralLedgerTransactionTransformed),
      o ∈ transformTransactionsLoop transactions stored →
      ∃ t, transactions.find? (fun u => u.id == o.id) = some t ∧
        o = transformTransaction t ∧ stored.contains o.id = false := by
  induction transactions with
  | nil => intro stored o ho; simp [transformTransactionsLoop] at ho
  | cons t rest ih =>
    intro stored o ho
    simp only [transformTransactionsLoop] at ho
    by_cases h : stored.contains t.id = true
    · rw [if_pos h] at ho
      obtain ⟨u, hfind, ho2, hnc⟩ := ih stored o ho
      have hne : (t.id == o.id) = false := by
        apply beq_eq_false_iff_ne.mpr
        intro heq
        rw [← heq] at hnc
        rw [h] at hnc
        exact Bool.true_eq_false.mp hnc
      refine ⟨u, ?_, ho2, hnc⟩
      rw [List.find?_cons_of_neg _ (by simp [hne])]
      exact hfind
    · rw [if_neg h] at ho
      rcases List.mem_cons.mp ho with ho1 | ho2
      · have hid : o.id = t.id := by rw [ho1]; rfl
        refine ⟨t, ?_, ho1, ?_⟩
        · rw [List.find?_cons_of_pos _ (by simp [hid])]
        · rw [hid]
          exact Bool.eq_false_iff.mpr h
      · obtain ⟨u, hfind, ho3, hnc⟩ := ih (t.id :: stored) o ho2
        rw [List.contains_cons, Bool.or_eq_false_iff] at hnc
        obtain ⟨hb, hs⟩ := hnc
        have hne : (t.id == o.id) = false := by
          apply beq_eq_false_iff_ne.mpr
          intro heq
          exact (beq_eq_false_iff_ne.mp hb) heq.symm
        refine ⟨u, ?_, ho3, hs⟩
        rw [List.find?_cons_of_neg _ (by simp [hne])]
        exact hfind

/-! ## Claim theorems -/

/-- C1: `transform_general_ledger_transactions` returns the flattened
transactions in first-seen order with exactly one output per distinct
transaction id: the output ids are the distinct input ids in order of first
occurrence and are duplicate-free, every output record is the flattening of
the FIRST input transaction carrying its id (duplicates are skipped whole,
nothing is merged), and the concrete example
`[T(id=1,memo="orig"), T(id=1,memo="dup"), T(id=2)]` yields exactly two
results whose id=1 element keeps the memo of the first occurrence. -/
theorem C1_transactions_dedup_first_seen :
    (∀ transactions : List GeneralLedgerTransaction,
      (transform_general_ledger_transactions transactions).map (fun o => o.id)
        = firstSeenIds (transactions.map (fun t => t.id)))
    ∧ (∀ transactions : List GeneralLedgerTransaction,
      ((transform_general_ledger_transactions transactions).map
        (fun o => o.id)).Nodup)
    ∧ (∀ (transactions : List GeneralLedgerTransaction)
        (o : GeneralLedgerTransactionTransformed),
      o ∈ transform_general_ledger_transactions transactions →
      ∃ t, transactions.find? (fun u => u.id == o.id) = some t ∧
        o = transformTransaction t)
    ∧ transform_general_ledger_transactions
        [sampleTransaction 1 "orig" [3], sampleTransaction 1 "dup" [3],
          sampleTransaction 2 "second" [5]]
      = [transformTransaction (sampleTransaction 1 "orig" [3]),
          transformTransaction (sampleTransaction 2 "second" [5])]
    ∧ (transform_general_ledger_transactions
        [sampleTransaction 1 "orig" [3], sampleTransaction 1 "dup" [3],
          sampleTransaction 2 "second" [5]]).length = 2
    ∧ (transform_general_ledger_transactions
        [sampleTransaction 1 "orig" [3], sampleTransaction 1 "dup" [3],
          sampleTransaction 2 "second" [5]]).map (fun o => o.journal_memo)
      = ["orig", "second"] := by
  refine ⟨?_, ?_, ?_, ?_, ?_, ?_⟩
  · intro transactions
    have h := transformTransactionsLoop_map_id transactions []
    simpa [transform_general_ledger_transactions] using h
  · intro transactions
    have h := transformTransactionsLoop_map_id transactions []
    rw [transform_general_ledger_transactions, h]
    exact firstSeenIds_nodup _
  · intro transactions o ho
    obtain ⟨t, hfind, ho2, _⟩ :=
      transformTransactionsLoop_first_occurrence transactions [] o ho
    exact ⟨t, hfind, ho2⟩
  · rfl
  · rfl
  · rfl

/-- C1 witness: the first-occurrence characterisation applied at a concrete
input with a duplicated id. -/
theorem C1_transactions_dedup_first_seen_witness :
    ∃ t, ([sampleTransaction 1 "orig" [3], sampleTransaction 1 "dup" [3],
        sampleTransaction 2 "second" [5]].find?
        (fun u => u.id == (transformTransaction (sampleTransaction 1 "orig" [3])).id))
      = some t ∧
      transformTransaction (sampleTransaction 1 "orig" [3]) = transformTransaction t :=
  C1_transactions_dedup_first_seen.2.2.1
    [sampleTransaction 1 "orig" [3], sampleTransaction 1 "dup" [3],
      sampleTransaction 2 "second" [5]]
    (transformTransaction (sampleTransaction 1 "orig" [3]))
    (by simp [transform_general_ledger_transactions, transformTransactionsLoop])

/-- C2: every record produced by `transform_general_ledger_transactions`
comes from an input transaction whose id it keeps, its `journal_memo` is
the `journal.memo` of the input, and its `lines` are the journal lines of the input
in the same length and order, each with the embedded account replaced by
`general_ledger_account_id = line.gl_account.id` and every other line
field unchanged; an empty journal-line list is preserved as an empty
`lines` sequence (the transform is total, so no error is raised), as the
concrete empty-lines example shows. -/
theorem C2_transactions_flatten_fields :
    (∀ (transactions : List GeneralLedgerTransaction)
        (o : GeneralLedgerTransactionTransformed),
      o ∈ transform_general_ledger_transactions transactions →
      ∃ t, t ∈ transactions ∧
        o.id = t.id ∧
        o.journal_memo = t.journal.memo ∧
        o.lines.length = t.journal.lines.length ∧
        o.lines = t.journal.lines.map (fun line =>
          { amount := line.amount
            is_cash_posting := line.is_cash_posting
            reference_number := line.reference_number
            memo := line.memo
            general_ledger_account_id := line.gl_account.id
            accounting_entity := line.accounting_entity }) ∧
        (t.journal.lines = [] → o.lines = []))
    ∧ transform_general_ledger_transactions [sampleTransaction 9 "no lines" []]
      = [transformTransaction (sampleTransaction 9 "no lines" [])]
    ∧ (transformTransaction (sampleTransaction 9 "no lines" [])).lines = [] := by
  refine ⟨?_, rfl, rfl⟩
  intro transactions o ho
  obtain ⟨t, hfind, ho2, _⟩ :=
    transformTransactionsLoop_first_occurrence transactions [] o ho
  refine ⟨t, List.mem_of_find?_eq_some hfind, ?_, ?_, ?_, ?_, ?_⟩
  · rw [ho2]; rfl
  · rw [ho2]; rfl
  · rw [ho2]
    simp [transformTransaction]
  · rw [ho2]; rfl
  · intro hempty
    rw [ho2]
    simp [transformTransaction, hempty]

/-- C2 witness: the field correspondence applied at a concrete singleton
input. -/
theorem C2_transactions_flatten_fields_witness :
    ∃ t, t ∈ [sampleTransaction 2 "second" [5]] ∧
      (transformTransaction (sampleTransaction 2 "second" [5])).id = t.id ∧
      (transformTransaction (sampleTransaction 2 "second" [5])).journal_memo
        = t.journal.memo ∧
      (transformTransaction (sampleTransaction 2 "second" [5])).lines.length
        = t.journal.lines.length ∧
      (transformTransaction (sampleTransaction 2 "second" [5])).lines
        = t.journal.lines.map (fun line =>
          { amount := line.amount
            is_cash_posting := line.is_cash_posting
            reference_number := line.reference_number
            memo := line.memo
            general_ledger_account_id := line.gl_account.id
            accounting_entity := line.accounting_entity }) ∧
      (t.journal.lines = [] →
        (transformTransaction (sampleTransaction 2 "second" [5])).lines = []) :=
  C2_transactions_flatten_fields.1 [sampleTransaction 2 "second" [5]]
    (transformTransaction (sampleTransaction 2 "second" [5]))
    (by simp [transform_general_ledger_transactions, transformTransactionsLoop])

/-- C6 (amended): for every input list of accounts whose `sub_accounts`
field is an actual list (possibly empty, not an explicit `null`),
`transform_general_ledger_accounts` returns, for each input account, the
account itself first and then its direct sub-accounts in their original
order, before the next top-level account; sub-accounts of sub-accounts are
not recursed into (the nested example emits two records only) and no
deduplication is performed (the duplicate-id example keeps both copies).
An account whose `sub_accounts` is `null` instead makes the transform raise
`TypeError` (see the counterexample theorem). -/
theorem C6_accounts_flatten_order :
    (∀ accounts : List GeneralLedgerAccount,
      (∀ a ∈ accounts, a.sub_accounts ≠ none) →
      transform_general_ledger_accounts accounts
        = .ok (accounts.flatMap (fun a =>
            flattenAccount a :: (a.sub_accounts.getD []).map flattenAccount)))
    ∧ transform_general_ledger_accounts
        [parentGLAccount 1 [sampleGLAccount 2, sampleGLAccount 3]]
      = .ok [flattenAccount (parentGLAccount 1 [sampleGLAccount 2, sampleGLAccount 3]),
          flattenAccount (sampleGLAccount 2), flattenAccount (sampleGLAccount 3)]
    ∧ transform_general_ledger_accounts
        [parentGLAccount 1 [parentGLAccount 2 [sampleGLAccount 3]]]
      = .ok [flattenAccount (parentGLAccount 1 [parentGLAccount 2 [sampleGLAccount 3]]),
          flattenAccount (parentGLAccount 2 [sampleGLAccount 3])]
    ∧ transform_general_ledger_accounts [sampleGLAccount 7, sampleGLAccount 7]
      = .ok [flattenAccount (sampleGLAccount 7), flattenAccount (sampleGLAccount 7)] := by
  refine ⟨?_, rfl, rfl, rfl⟩
  intro accounts h
  induction accounts with
  | nil => rfl
  | cons a rest ih =>
    obtain ⟨subs, hsubs⟩ :=
      Option.ne_none_iff_exists.mp (h a (List.mem_cons_self a rest))
    have htail := ih (fun b hb => h b (List.mem_cons_of_mem a hb))
    simp only [transform_general_ledger_accounts, ← hsubs, htail,
      List.flatMap_cons, hsubs.symm]
    simp [Option.getD]

/-- C6 counterexample: the claim quantifies over every input list, but an
account whose `sub_accounts` field is an explicit `null` (accepted by the
`Optional` pydantic field) makes `transform_general_ledger_accounts` raise
`TypeError` instead of returning the flattened list. -/
theorem C6_accounts_flatten_order_counterexample :
    transform_general_ledger_accounts [nullSubAccountsAccount 1]
      = .error "TypeError: NoneType object is not iterable" := rfl

/-- C6 witness: the ordering equation applied at the concrete input
`[A(sub=[B,C])]`. -/
theorem C6_accounts_flatten_order_witness :
    transform_general_ledger_accounts
        [parentGLAccount 10 [sampleGLAccount 11, sampleGLAccount 12]]
      = .ok ([parentGLAccount 10 [sampleGLAccount 11, sampleGLAccount 12]].flatMap
          (fun a => flattenAccount a :: (a.sub_accounts.getD []).map flattenAccount)) :=
  C6_accounts_flatten_order.1
    [parentGLAccount 10 [sampleGLAccount 11, sampleGLAccount 12]]
    (by
      intro a ha
      simp only [List.mem_singleton] at ha
      subst ha
      simp [parentGLAccount, GeneralLedgerAccount.sub_accounts])

/-- C7 (amended): for every account whose `sub_accounts` field is the
empty list, the transform of the one-element list containing it yields
exactly one `FlatAccount` whose every field equals the corresponding field
of the input account, only `sub_accounts` being dropped.  An account whose
`sub_accounts` field is an explicit `null` also has zero sub-accounts but
makes the transform raise `TypeError` (see the counterexample theorem). -/
theorem C7_account_flatten_identity :
    ∀ account : GeneralLedgerAccount, account.sub_accounts = some [] →
      transform_general_ledger_accounts [account] = .ok [flattenAccount account] ∧
      (flattenAccount account).id = account.id ∧
      (flattenAccount account).account_number = account.account_number ∧
      (flattenAccount account).name = account.name ∧
      (flattenAccount account).description = account.description ∧
      (flattenAccount account).type = account.type ∧
      (flattenAccount account).sub_type = account.sub_type ∧
      (flattenAccount account).is_default_gl_account = account.is_default_gl_account ∧
      (flattenAccount account).default_account_name = account.default_account_name ∧
      (flattenAccount account).is_contra_account = account.is_contra_account ∧
      (flattenAccount account).is_bank_account = account.is_bank_account ∧
      (flattenAccount account).cash_flow_classification
        = account.cash_flow_classification ∧
      (flattenAccount account).exclude_from_cash_balances
        = account.exclude_from_cash_balances ∧
      (flattenAccount account).is_active = account.is_active ∧
      (flattenAccount account).parent_gl_account_id = account.parent_gl_account_id := by
  intro account hsub
  refine ⟨?_, rfl, rfl, rfl, rfl, rfl, rfl, rfl, rfl, rfl, rfl, rfl, rfl, rfl, rfl⟩
  simp [transform_general_ledger_accounts, hsub]

/-- C7 counterexample: an account whose `sub_accounts` is an explicit
`null` has zero sub-accounts, yet the transform raises `TypeError` rather
than yielding one `FlatAccount`. -/
theorem C7_account_flatten_identity_counterexample :
    transform_general_ledger_accounts [nullSubAccountsAccount 4]
      = .error "TypeError: NoneType object is not iterable" := rfl

/-- C7 witness: the identity applied at a concrete leaf account. -/
theorem C7_account_flatten_identity_witness :
    transform_general_ledger_accounts [sampleGLAccount 2]
      = .ok [flattenAccount (sampleGLAccount 2)] ∧
    (flattenAccount (sampleGLAccount 2)).id = (sampleGLAccount 2).id ∧
    (flattenAccount (sampleGLAccount 2)).name = (sampleGLAccount 2).name :=
  ⟨(C7_account_flatten_identity (sampleGLAccount 2) rfl).1,
    (C7_account_flatten_identity (sampleGLAccount 2) rfl).2.1,
    (C7_account_flatten_identity (sampleGLAccount 2) rfl).2.2.2.1⟩

theorem mapAccountParticipationLoop_ok
    (payload : List GeneralLedgerTransaction) :
    ∀ (ids : List Int) (rows : List GeneralLedgerAccountTransactions)
      (acc : List GeneralLedgerTransaction),
      (∀ a ∈ ids, a ≠ 0) →
      mapAccountParticipationLoop payload ids rows acc
        = .ok (rows ++ ids.flatMap (fun a =>
              (transactions_json_search payload a).map
                (fun t => { account_id := a, transaction_id := t.id })),
            acc ++ ids.flatMap (fun a => transactions_json_search payload a)) := by
  intro ids
  induction ids with
  | nil => intro rows acc _; simp [mapAccountParticipationLoop]
  | cons a rest ih =>
    intro rows acc h
    have ha : a ≠ 0 := h a (List.mem_cons_self a rest)
    simp only [mapAccountParticipationLoop, get_general_ledger_transactions,
      if_neg ha]
    rw [ih _ _ (fun b hb => h b (List.mem_cons_of_mem a hb))]
    simp [List.flatMap_cons, List.append_assoc]

/-- C3 (amended): for every list of distinct nonzero account ids (iteration
order of the Python set) and every transaction payload,
`map_account_participation` emits, per account id in order, one
`AccountParticipation` row per transaction whose journal lines touch that
account, and appends those transactions to the accumulated list, so a
transaction touching two tracked accounts appears once per account; an
account id with zero matching transactions contributes nothing and raises
no error.  An account id equal to `0` instead aborts the whole mapping with
`ValueError` (see the counterexample theorem and C10). -/
theorem C3_account_participation_rows :
    (∀ (ids : List Int) (payload : List GeneralLedgerTransaction),
      (∀ a ∈ ids, a ≠ 0) →
      map_account_participation ids payload
        = .ok (ids.flatMap (fun a =>
              (transactions_json_search payload a).map
                (fun t => { account_id := a, transaction_id := t.id })),
            ids.flatMap (fun a => transactions_json_search payload a)))
    ∧ map_account_participation [101, 3]
        [sampleTransaction 1 "m1" [3], sampleTransaction 2 "m2" [3, 5]]
      = .ok ([{ account_id := 3, transaction_id := 1 },
            { account_id := 3, transaction_id := 2 }],
          [sampleTransaction 1 "m1" [3], sampleTransaction 2 "m2" [3, 5]]) := by
  refine ⟨?_, rfl⟩
  intro ids payload h
  rw [map_account_participation, mapAccountParticipationLoop_ok payload ids [] [] h]
  simp

/-- C3 counterexample: the claim as stated quantifies over every set of
account ids, but the id `0` (zero matching transactions in the empty
payload) makes the mapping raise `ValueError` rather than contribute zero
rows. -/
theorem C3_account_participation_rows_counterexample :
    map_account_participation [0] [] = .error "General account ID is required" := rfl

/-- C3 witness: the participation equation applied at a concrete id list
with a zero-match account (101) and a double-match account (3). -/
theorem C3_account_participation_rows_witness :
    map_account_participation [101, 3]
        [sampleTransaction 1 "m1" [3], sampleTransaction 2 "m2" [3, 5]]
      = .ok ([101, 3].flatMap (fun a =>
            (transactions_json_search
              [sampleTransaction 1 "m1" [3], sampleTransaction 2 "m2" [3, 5]] a).map
              (fun t => { account_id := a, transaction_id := t.id })),
          [101, 3].flatMap (fun a =>
            transactions_json_search
              [sampleTransaction 1 "m1" [3], sampleTransaction 2 "m2" [3, 5]] a)) :=
  C3_account_participation_rows.1 [101, 3]
    [sampleTransaction 1 "m1" [3], sampleTransaction 2 "m2" [3, 5]] (by decide)

theorem mapAccountParticipationLoop_zero
    (payload : List GeneralLedgerTransaction) :
    ∀ (ids : List Int) (rows : List GeneralLedgerAccountTransactions)
      (acc : List GeneralLedgerTransaction),
      0 ∈ ids →
      mapAccountParticipationLoop payload ids rows acc
        = .error "General account ID is required" := by
  intro ids
  induction ids with
  | nil => intro _ _ h; simp at h
  | cons a rest ih =>
    intro rows acc h
    by_cases ha : a = 0
    · subst ha
      simp [mapAccountParticipationLoop, get_general_ledger_transactions]
    · have hrest : 0 ∈ rest := by
        rcases List.mem_cons.mp h with h0 | h0
        · exact absurd h0.symm ha
        · exact h0
      simp only [mapAccountParticipationLoop, get_general_ledger_transactions,
        if_neg ha]
      exact ih _ _ hrest

/-- C10: if the account id set contains the integer `0`,
`map_account_participation` aborts with `ValueError`, because
`get_general_ledger_transactions` rejects any falsy `general_account_id`
as missing, even though `0` is a well-typed account id. -/
theorem C10_zero_account_id_aborts :
    (∀ (ids : List Int) (payload : List GeneralLedgerTransaction),
      0 ∈ ids →
      map_account_participation ids payload
        = .error "General account ID is required")
    ∧ (∀ payload : List GeneralLedgerTransaction,
      get_general_ledger_transactions 0 payload
        = .error "General account ID is required") := by
  constructor
  · intro ids payload h
    exact mapAccountParticipationLoop_zero payload ids [] [] h
  · intro payload
    rfl

/-- C10 witness: the abort applied at a concrete id list containing `0`
after a benign nonzero id. -/
theorem C10_zero_account_id_aborts_witness :
    map_account_participation [7, 0] [sampleTransaction 1 "m1" [7]]
        = .error "General account ID is required" ∧
      get_general_ledger_transactions 0 [] = .error "General account ID is required" :=
  ⟨C10_zero_account_id_aborts.1 [7, 0] [sampleTransaction 1 "m1" [7]] (by decide),
    C10_zero_account_id_aborts.2 []⟩

/-! ## Lemmas on the retrying fetcher -/

theorem fetchLoop_step_429 (respond : Nat → ApiResponse)
    (attempt m delay : Nat) (sleeps : List Nat)
    (h : (respond attempt).status_code = 429) :
    fetchTransactionsLoop respond attempt (m + 1) delay sleeps
      = fetchTransactionsLoop respond (attempt + 1) m (delay * 2) (sleeps ++ [delay]) := by
  simp [fetchTransactionsLoop, h]

theorem fetchLoop_step_transport (respond : Nat → ApiResponse)
    (attempt m delay : Nat) (sleeps : List Nat)
    (h429 : (respond attempt).status_code ≠ 429)
    (h400 : 400 ≤ (respond attempt).status_code) :
    fetchTransactionsLoop respond attempt (m + 1) delay sleeps
      = .transportError (respond attempt).status_code sleeps := by
  simp [fetchTransactionsLoop, h429, h400]

theorem fetchLoop_step_success (respond : Nat → ApiResponse)
    (attempt m delay : Nat) (sleeps : List Nat)
    (h400 : (respond attempt).status_code < 400) :
    fetchTransactionsLoop respond attempt (m + 1) delay sleeps
      = .success (respond attempt).text sleeps := by
  have h429 : (respond attempt).status_code ≠ 429 := by omega
  have hnot : ¬ 400 ≤ (respond attempt).status_code := by omega
  simp [fetchTransactionsLoop, h429, hnot]

theorem sleeps_shift (delay n : Nat) :
    delay :: (List.range n).map (fun i => delay * 2 * 2 ^ i)
      = (List.range (n + 1)).map (fun i => delay * 2 ^ i) := by
  rw [List.range_succ_eq_map, List.map_cons, List.map_map]
  simp only [pow_zero, mul_one]
  congr 1
  apply List.map_congr_left
  intro i _
  simp only [Function.comp_apply, pow_succ]
  ring

theorem fetchTransactionsLoop_exhausted (respond : Nat → ApiResponse) :
    ∀ (n attempt delay : Nat) (sleeps : List Nat),
      (∀ i < n, (respond (attempt + i)).status_code = 429) →
      fetchTransactionsLoop respond attempt n delay sleeps
        = .retryExhausted (sleeps ++ (List.range n).map (fun i => delay * 2 ^ i)) := by
  intro n
  induction n with
  | zero => intro attempt delay sleeps _; simp [fetchTransactionsLoop]
  | succ m ih =>
    intro attempt delay sleeps h
    have h0 : (respond attempt).status_code = 429 := by
      simpa using h 0 (Nat.succ_pos m)
    rw [fetchLoop_step_429 respond attempt m delay sleeps h0]
    rw [ih (attempt + 1) (delay * 2) (sleeps ++ [delay]) (fun i hi => by
      have := h (i + 1) (Nat.succ_lt_succ hi)
      rwa [show attempt + (i + 1) = attempt + 1 + i from by omega] at this)]
    rw [List.append_assoc, List.singleton_append, sleeps_shift]

theorem fetchTransactionsLoop_success (respond : Nat → ApiResponse) :
    ∀ (k n attempt delay : Nat) (sleeps : List Nat),
      k < n →
      (∀ i < k, (respond (attempt + i)).status_code = 429) →
      (respond (attempt + k)).status_code < 400 →
      fetchTransactionsLoop respond attempt n delay sleeps
        = .success (respond (attempt + k)).text
            (sleeps ++ (List.range k).map (fun i => delay * 2 ^ i)) := by
  intro k
  induction k with
  | zero =>
    intro n attempt delay sleeps hn _ hs
    obtain ⟨m, rfl⟩ : ∃ m, n = m + 1 := ⟨n - 1, by omega⟩
    rw [fetchLoop_step_success respond attempt m delay sleeps (by simpa using hs)]
    simp
  | succ j ih =>
    intro n attempt delay sleeps hn h429 hs
    obtain ⟨m, rfl⟩ : ∃ m, n = m + 1 := ⟨n - 1, by omega⟩
    have hidx : attempt + (j + 1) = attempt + 1 + j := by omega
    have h0 : (respond attempt).status_code = 429 := by
      simpa using h429 0 (Nat.succ_pos j)
    rw [hidx, fetchLoop_step_429 respond attempt m delay sleeps h0]
    rw [ih m (attempt + 1) (delay * 2) (sleeps ++ [delay]) (by omega)
      (fun i hi => by
        have := h429 (i + 1) (Nat.succ_lt_succ hi)
        rwa [show attempt + (i + 1) = attempt + 1 + i from by omega] at this)
      (by rwa [hidx] at hs)]
    rw [List.append_assoc, List.singleton_append, sleeps_shift]

theorem fetchTransactionsLoop_transport (respond : Nat → ApiResponse) :
    ∀ (k n attempt delay : Nat) (sleeps : List Nat),
      k < n →
      (∀ i < k, (respond (attempt + i)).status_code = 429) →
      (respond (attempt + k)).status_code ≠ 429 →
      400 ≤ (respond (attempt + k)).status_code →
      fetchTransactionsLoop respond attempt n delay sleeps
        = .transportError (respond (attempt + k)).status_code
            (sleeps ++ (List.range k).map (fun i => delay * 2 ^ i)) := by
  intro k
  induction k with
  | zero =>
    intro n attempt delay sleeps hn _ h429 h400
    obtain ⟨m, rfl⟩ : ∃ m, n = m + 1 := ⟨n - 1, by omega⟩
    rw [fetchLoop_step_transport respond attempt m delay sleeps
      (by simpa using h429) (by simpa using h400)]
    simp
  | succ j ih =>
    intro n attempt delay sleeps hn hpre h429 h400
    obtain ⟨m, rfl⟩ : ∃ m, n = m + 1 := ⟨n - 1, by omega⟩
    have hidx : attempt + (j + 1) = attempt + 1 + j := by omega
    have h0 : (respond attempt).status_code = 429 := by
      simpa using hpre 0 (Nat.succ_pos j)
    rw [hidx, fetchLoop_step_429 respond attempt m delay sleeps h0]
    rw [ih m (attempt + 1) (delay * 2) (sleeps ++ [delay]) (by omega)
      (fun i hi => by
        have := hpre (i + 1) (Nat.succ_lt_succ hi)
        rwa [show attempt + (i + 1) = attempt + 1 + i from by omega] at this)
      (by rwa [hidx] at h429) (by rwa [hidx] at h400)]
    rw [List.append_assoc, List.singleton_append, sleeps_shift]

theorem fetchTransactionsLoop_exhausted_inv (respond : Nat → ApiResponse) :
    ∀ (n attempt delay : Nat) (sleeps s : List Nat),
      fetchTransactionsLoop respond attempt n delay sleeps = .retryExhausted s →
      ∀ i < n, (respond (attempt + i)).status_code = 429 := by
  intro n
  induction n with
  | zero => intro _ _ _ _ _ i hi; exact absurd hi (Nat.not_lt_zero i)
  | succ m ih =>
    intro attempt delay sleeps s hload i hi
    by_cases h0 : (respond attempt).status_code = 429
    · rw [fetchLoop_step_429 respond attempt m delay sleeps h0] at hload
      match i with
      | 0 => simpa using h0
      | j + 1 =>
        have := ih (attempt + 1) (delay * 2) (sleeps ++ [delay]) s hload j (by omega)
        rwa [show attempt + 1 + j = attempt + (j + 1) from by omega] at this
    · by_cases h4 : 400 ≤ (respond attempt).status_code
      · rw [fetchLoop_step_transport respond attempt m delay sleeps h0 h4] at hload
        simp at hload
      · rw [fetchLoop_step_success respond attempt m delay sleeps (by omega)] at hload
        simp at hload

/-- C5: `fetch_transactions_from_api` sleeps once per rate-limited (429)
response with delays starting at the fixed base 2 and doubling after each
rate-limited attempt; it fails with `RetryExhausted` after sleeps
`[2,4,8,16,32]` exactly when all 5 attempts are rate limited (one sleep per
attempt, the last included); after `k < 5` rate-limited attempts a success
status returns the response body unmodified with `k` sleeps and any other
error status fails with `TransportError` immediately; in particular a 429
followed by a success completes after exactly one sleep, and a first-call
non-429 error fails with no sleep at all. -/
theorem C5_fetch_retry_backoff :
    (∀ respond : Nat → ApiResponse,
      fetch_transactions_from_api respond = .retryExhausted [2, 4, 8, 16, 32]
        ↔ ∀ i < 5, (respond i).status_code = 429)
    ∧ (∀ (respond : Nat → ApiResponse) (k : Nat), k < 5 →
        (∀ i < k, (respond i).status_code = 429) →
        (respond k).status_code < 400 →
        fetch_transactions_from_api respond
          = .success (respond k).text ((List.range k).map (fun i => 2 * 2 ^ i)))
    ∧ (∀ (respond : Nat → ApiResponse) (k : Nat), k < 5 →
        (∀ i < k, (respond i).status_code = 429) →
        (respond k).status_code ≠ 429 → 400 ≤ (respond k).status_code →
        fetch_transactions_from_api respond
          = .transportError (respond k).status_code
              ((List.range k).map (fun i => 2 * 2 ^ i)))
    ∧ (∀ respond : Nat → ApiResponse,
        (respond 0).status_code = 429 → (respond 1).status_code < 400 →
        fetch_transactions_from_api respond = .success (respond 1).text [2])
    ∧ (∀ respond : Nat → ApiResponse,
        (respond 0).status_code ≠ 429 → 400 ≤ (respond 0).status_code →
        fetch_transactions_from_api respond
          = .transportError (respond 0).status_code []) := by
  refine ⟨?_, ?_, ?_, ?_, ?_⟩
  · intro respond
    constructor
    · intro h i hi
      have := fetchTransactionsLoop_exhausted_inv respond 5 0 2 [] _ h i hi
      simpa using this
    · intro h
      have := fetchTransactionsLoop_exhausted respond 5 0 2 []
        (fun i hi => by simpa using h i hi)
      rw [fetch_transactions_from_api, this]
      rfl
  · intro respond k hk hpre hs
    have := fetchTransactionsLoop_success respond k 5 0 2 [] hk
      (fun i hi => by simpa using hpre i hi) (by simpa using hs)
    rw [fetch_transactions_from_api, this]
    simp
  · intro respond k hk hpre h429 h400
    have := fetchTransactionsLoop_transport respond k 5 0 2 [] hk
      (fun i hi => by simpa using hpre i hi) (by simpa using h429)
      (by simpa using h400)
    rw [fetch_transactions_from_api, this]
    simp
  · intro respond h0 h1
    have := fetchTransactionsLoop_success respond 1 5 0 2 [] (by omega)
      (fun i hi => by
        have hz : i = 0 := by omega
        subst hz
        simpa using h0)
      (by simpa using h1)
    rw [fetch_transactions_from_api, this]
    rfl
  · intro respond h429 h400
    have := fetchTransactionsLoop_transport respond 0 5 0 2 [] (by omega)
      (fun i hi => absurd hi (Nat.not_lt_zero i)) (by simpa using h429)
      (by simpa using h400)
    rw [fetch_transactions_from_api, this]
    rfl

/-- C5 witness: the retry behaviour applied at concrete response
sequences: all rate limited, rate limited then success, an immediate
server error, and an immediate success. -/
theorem C5_fetch_retry_backoff_witness :
    fetch_transactions_from_api respondAll429 = .retryExhausted [2, 4, 8, 16, 32]
    ∧ fetch_transactions_from_api respondThenOk = .success "payload" [2]
    ∧ fetch_transactions_from_api respond500 = .transportError 500 []
    ∧ fetch_transactions_from_api respondOk = .success "body" [] := by
  refine ⟨?_, ?_, ?_, ?_⟩
  · exact (C5_fetch_retry_backoff.1 respondAll429).mpr (fun i _ => rfl)
  · exact C5_fetch_retry_backoff.2.2.2.1 respondThenOk rfl (by decide)
  · exact C5_fetch_retry_backoff.2.2.2.2 respond500 (by decide) (by decide)
  · exact C5_fetch_retry_backoff.2.1 respondOk 0 (by omega)
      (fun i hi => absurd hi (Nat.not_lt_zero i)) (by decide)

/-- C4: the merge match condition is the AND-conjunction of
`target.c = source.c` over the key columns (the default `["id"]` gives
exactly `target.id = source.id`, the compound key gives the conjunction of
both equalities); for every input, the merge statement filters its source
on `WHERE run_id = %s` and binds exactly the supplied run id; and the
statements built at the call-site configurations contain a
`WHEN NOT MATCHED THEN INSERT` clause and no `WHEN MATCHED`, `UPDATE` or
`DELETE` text at all, so rows already present in the target are never
updated or deleted. -/
theorem C4_merge_match_condition_insert_only :
    idMatchingCondition ["id"] = "target.id = source.id"
    ∧ idMatchingCondition ["account_id", "transaction_id"]
      = "target.account_id = source.account_id AND target.transaction_id = source.transaction_id"
    ∧ (∀ (staging_table target_table run_id : String)
        (columns id_matching_columns : List String),
      (merge_staging_table_into_target_table staging_table target_table columns
          run_id id_matching_columns).2 = [run_id]
      ∧ "WHERE run_id = %s".data <:+:
          (merge_staging_table_into_target_table staging_table target_table columns
            run_id id_matching_columns).1.data)
    ∧ (∀ account : GeneralLedgerAccountFlattened,
        (account.model_dump).map Prod.fst = account_columns)
    ∧ (∀ transaction : GeneralLedgerTransactionTransformed,
        (transaction.model_dump).map Prod.fst = transaction_columns)
    ∧ (∀ row : GeneralLedgerAccountTransactions,
        (row.model_dump).map Prod.fst = account_transactions_columns)
    ∧ (¬ ("UPDATE".data <:+:
          (mergeQueryText "general_ledger_staging.account" "general_ledger.account"
            account_columns ["id"]).data)
      ∧ ¬ ("DELETE".data <:+:
          (mergeQueryText "general_ledger_staging.account" "general_ledger.account"
            account_columns ["id"]).data)
      ∧ ¬ ("WHEN MATCHED".data <:+:
          (mergeQueryText "general_ledger_staging.account" "general_ledger.account"
            account_columns ["id"]).data)
      ∧ "WHEN NOT MATCHED THEN INSERT (".data <:+:
          (mergeQueryText "general_ledger_staging.account" "general_ledger.account"
            account_columns ["id"]).data)
    ∧ (¬ ("UPDATE".data <:+:
          (mergeQueryText "general_ledger_staging.account_transactions"
            "general_ledger.account_transactions" account_transactions_columns
            ["account_id", "transaction_id"]).data)
      ∧ ¬ ("DELETE".data <:+:
          (mergeQueryText "general_ledger_staging.account_transactions"
            "general_ledger.account_transactions" account_transactions_columns
            ["account_id", "transaction_id"]).data)
      ∧ ¬ ("WHEN MATCHED".data <:+:
          (mergeQueryText "general_ledger_staging.account_transactions"
            "general_ledger.account_transactions" account_transactions_columns
            ["account_id", "transaction_id"]).data)
      ∧ "WHEN NOT MATCHED THEN INSERT (".data <:+:
          (mergeQueryText "general_ledger_staging.account_transactions"
            "general_ledger.account_transactions" account_transactions_columns
            ["account_id", "transaction_id"]).data) := by
  refine ⟨rfl, rfl, ?_, fun _ => rfl, fun _ => rfl, fun _ => rfl,
    ⟨by decide, by decide, by decide, by decide⟩,
    ⟨by decide, by decide, by decide, by decide⟩⟩
  intro staging_table target_table run_id columns id_matching_columns
  refine ⟨rfl, ?_⟩
  have hsplit : mergeQueryText staging_table target_table columns id_matching_columns
      = ("MERGE INTO " ++ target_table ++ " AS target USING (SELECT * FROM "
          ++ staging_table)
        ++ (" WHERE run_id = %s) AS source ON "
          ++ (idMatchingCondition id_matching_columns
            ++ (" WHEN NOT MATCHED THEN INSERT ("
              ++ (String.intercalate ", " columns
                ++ (") VALUES (" ++ (String.intercalate ", " columns ++ ")")))))) := by
    simp [mergeQueryText, String.append_assoc]
  have hpat : "WHERE run_id = %s".data <:+: " WHERE run_id = %s) AS source ON ".data := by
    decide
  have hseg : (" WHERE run_id = %s) AS source ON ").data <:+:
      (mergeQueryText staging_table target_table columns id_matching_columns).data := by
    refine ⟨("MERGE INTO " ++ target_table ++ " AS target USING (SELECT * FROM "
        ++ staging_table).data,
      (idMatchingCondition id_matching_columns
        ++ (" WHEN NOT MATCHED THEN INSERT ("
          ++ (String.intercalate ", " columns
            ++ (") VALUES (" ++ (String.intercalate ", " columns ++ ")"))))).data, ?_⟩
    rw [hsplit]
    simp [String.data_append, List.append_assoc]
  exact hpat.trans hseg

theorem parseAccountList_any_error :
    ∀ raws : List RawAccount, ∀ r ∈ raws, (∃ e, parseAccount r = .error e) →
      ∃ e, parseAccountList raws = .error e := by
  intro raws
  induction raws with
  | nil => intro r hr; simp at hr
  | cons a rest ih =>
    intro r hr he
    obtain ⟨e, hee⟩ := he
    rcases List.mem_cons.mp hr with h | h
    · subst h
      exact ⟨e, by simp [parseAccountList, hee]⟩
    · cases hp : parseAccount a with
      | error e2 => exact ⟨e2, by simp [parseAccountList, hp]⟩
      | ok account =>
        obtain ⟨e3, he3⟩ := ih r h ⟨e, hee⟩
        exact ⟨e3, by simp [parseAccountList, hp, he3]⟩

/-- C8: validation is all-or-nothing per call: if any element of the raw
collection fails shape validation, `get_general_ledger_accounts` fails
with `ValidationError` and returns no record list at all; concretely, a
collection of one well-formed and one malformed record fails entirely even
though the well-formed record alone validates. -/
theorem C8_validation_all_or_nothing :
    (∀ raws : List RawAccount,
      (∃ r ∈ raws, ∃ e, parseAccount r = .error e) →
      (∃ e, get_general_ledger_accounts raws = .error e)
      ∧ ∀ l, get_general_ledger_accounts raws ≠ .ok l)
    ∧ get_general_ledger_accounts [rawAccountGood, rawAccountBad]
      = .error "ValidationError: field required"
    ∧ (∃ e, parseAccount rawAccountBad = .error e)
    ∧ (∃ account, get_general_ledger_accounts [rawAccountGood] = .ok [account]) := by
  refine ⟨?_, rfl, ⟨"ValidationError: field required", rfl⟩, ⟨_, rfl⟩⟩
  intro raws hbad
  obtain ⟨r, hr, he⟩ := hbad
  obtain ⟨e, hee⟩ := parseAccountList_any_error raws r hr he
  refine ⟨⟨e, hee⟩, ?_⟩
  intro l hok
  rw [get_general_ledger_accounts, GeneralLedgerAccounts.validate_json] at hok
  rw [hok] at hee
  exact Except.noConfusion hee

/-- C8 witness: atomicity applied at the concrete two-element collection
with one well-formed and one malformed record. -/
theorem C8_validation_all_or_nothing_witness :
    (∃ e, get_general_ledger_accounts [rawAccountGood, rawAccountBad] = .error e)
    ∧ ∀ l, get_general_ledger_accounts [rawAccountGood, rawAccountBad] ≠ .ok l :=
  C8_validation_all_or_nothing.1 [rawAccountGood, rawAccountBad]
    ⟨rawAccountBad, by simp, "ValidationError: field required", rfl⟩

/-- C9: exporting an empty record list raises `IndexError` (the CSV header
is derived from element 0), and each `load_*` function therefore fails on
zero records — loading an empty batch is never a silent no-op. -/
theorem C9_empty_batch_never_silent :
    (∀ (α : Type) (model_dump : α → List (String × String))
        (file_name run_id : String),
      export_data_to_csv model_dump ([] : List α) file_name run_id
        = .error "IndexError: list index out of range")
    ∧ (∀ run_id : String,
      load_general_ledger_accounts_into_snowflake [] run_id
        = .error "IndexError: list index out of range")
    ∧ (∀ run_id : String,
      load_general_ledger_transactions_into_snowflake [] run_id
        = .error "IndexError: list index out of range")
    ∧ (∀ run_id : String,
      load_general_ledger_account_transactions_into_snowflake [] run_id
        = .error "IndexError: list index out of range") :=
  ⟨fun _ _ _ _ => rfl, fun _ => rfl, fun _ => rfl, fun _ => rfl⟩

end SFR3
